import Mathlib

/-!
Shallow embedding of the Theia browser request service.

Sources embedded here:
- `packages/core/src/common/request.ts`: `RequestOptions`, `RequestContext`,
  `RequestContext.isSuccess` / `hasNoContent` / `asText` / `asJson`,
  `RequestConfiguration`.
- `packages/core/src/browser/request/browser-request-service.ts`:
  `DefaultBrowserRequestService` (the preference-change handler installed by
  `init`) and `XHRBrowserRequestService` (`configure`, `request`, `xhrRequest`,
  `setRequestHeaders`, `getResponseHeaders`).

Modelling conventions:
- JavaScript values that may be `undefined`, a string or a boolean are
  represented by `JsValue`; JavaScript truthiness is `JsValue.truthy`.
- JavaScript objects used as string maps are association lists built by
  `objSet` (assignment) and read by `objGet` (lookup); the source only ever
  builds maps with unique keys, and assignment overwrites in place.
- The byte buffer (`BinaryBuffer`) is an external collaborator consumed as a
  black box with a `toString` view; we model a buffer by that decoded text
  (`content` stands for what `buffer.toString()` returns).
- `JSON.parse` and the XMLHttpRequest primitive are host facilities: the
  parser is a parameter of `asJson`, and one native attempt's observable
  behaviour is an `XhrEvent` (whichever of load / error / timeout /
  cancellation settles the pending promise first).
- Promises that can reject are `Except`; a rejection with no reason
  (`reject()`) carries `none`.
-/

namespace Theia

/-- A JavaScript value flowing through the request-configuration paths:
`undefined`, a string, or a boolean. -/
inductive JsValue where
  | undefined
  | str (s : String)
  | bool (b : Bool)
deriving DecidableEq

/-- JavaScript truthiness of a `JsValue` (`undefined` and the empty string are
falsy). -/
def JsValue.truthy : JsValue → Bool
  | .undefined => false
  | .str s => !(s == "")
  | .bool b => b

/-- JavaScript string coercion of a `JsValue`. -/
def JsValue.asString : JsValue → String
  | .undefined => "undefined"
  | .str s => s
  | .bool true => "true"
  | .bool false => "false"

/-- Property read `obj[k]` on a JavaScript object modelled as an association
list: the first binding for `k`, if any. -/
def objGet {β : Type} : List (String × β) → String → Option β
  | [], _ => none
  | e :: t, k => if e.1 = k then some e.2 else objGet t k

/-- Property assignment `obj[k] = v`: overwrite the existing binding in place,
or append a new one. -/
def objSet {β : Type} : List (String × β) → String → β → List (String × β)
  | [], k, v => [(k, v)]
  | e :: t, k, v => if e.1 = k then (k, v) :: t else e :: objSet t k v

/-- `Headers` from `request.ts`: a string-to-string map. -/
abbrev Headers := List (String × String)

/-- The byte-buffer collaborator, black box with a `toString` view: `content`
is the UTF-8 decoded text the source obtains via `buffer.toString()`. -/
structure BinaryBuffer where
  content : String
deriving DecidableEq

/-- `RequestOptions` from `request.ts`. -/
structure RequestOptions where
  type : Option String := none
  url : String := ""
  user : Option String := none
  password : Option String := none
  headers : Option Headers := none
  timeout : Option Nat := none
  data : Option String := none
  followRedirects : Option Nat := none
  proxyAuthorization : Option String := none
deriving DecidableEq

/-- The `res` component of `RequestContext`. -/
structure ResponseData where
  headers : Headers := []
  statusCode : Option Nat := none
deriving DecidableEq

/-- `RequestContext` from `request.ts`. -/
structure RequestContext where
  res : ResponseData
  buffer : BinaryBuffer
deriving DecidableEq

/-- JavaScript string interpolation of a possibly-undefined number
(`undefined` prints as the word `undefined`). -/
def jsNumber : Option Nat → String
  | none => "undefined"
  | some n => toString n

namespace RequestContext

/-- `RequestContext.isSuccess`: the source expression
`(statusCode && statusCode >= 200 && statusCode < 300) || statusCode === 1223`,
with JavaScript truthiness of the possibly-undefined status code. -/
def isSuccess (context : RequestContext) : Bool :=
  (match context.res.statusCode with
   | none => false
   | some n => !(n == 0) && decide (200 ≤ n) && decide (n < 300))
  || (context.res.statusCode == some 1223)

/-- `RequestContext.hasNoContent`: `statusCode === 204`. -/
def hasNoContent (context : RequestContext) : Bool :=
  context.res.statusCode == some 204

/-- `RequestContext.asText`: throw on non-success, empty string on 204,
otherwise the buffer decoded to text. -/
def asText (context : RequestContext) : Except String String :=
  if !isSuccess context then
    .error ("Server returned " ++ jsNumber context.res.statusCode)
  else if hasNoContent context then
    .ok ""
  else
    .ok context.buffer.content

/-- `RequestContext.asJson`: throw on non-success, otherwise decode the buffer
and parse it; on parse failure the parser error message gets the raw text
appended (`err.message += ':\n' + str`). `JSON.parse` is a host primitive,
taken as the parameter `parse`. -/
def asJson {α : Type} (parse : String → Except String α) (context : RequestContext) :
    Except String α :=
  if !isSuccess context then
    .error ("Server returned " ++ jsNumber context.res.statusCode)
  else
    let str := context.buffer.content
    match parse str with
    | .ok value => .ok value
    | .error msg => .error (msg ++ ":\n" ++ str)

end RequestContext

/-- `RequestConfiguration` from `request.ts`; a field holding `none` models an
absent key, `some v` a present key with (possibly undefined) value `v`, so the
JavaScript `'proxyAuthorization' in config` test is expressible. -/
structure RequestConfiguration where
  proxyUrl : Option JsValue := none
  proxyAuthorization : Option JsValue := none
  strictSSL : Option JsValue := none
deriving DecidableEq

/-- One entry of a preference-change event: `{newValue, oldValue}`. -/
structure PrefChange where
  newValue : JsValue
  oldValue : JsValue
deriving DecidableEq

namespace DefaultBrowserRequestService

/-- Models the JavaScript read `e[k].newValue`: when `k` is absent, `e[k]` is
`undefined` and reading `.newValue` of it throws a `TypeError`. -/
def readNewValue (e : List (String × PrefChange)) (k : String) : Except String JsValue :=
  match objGet e k with
  | some change => .ok change.newValue
  | none => .error "TypeError: cannot read newValue of undefined"

/-- The preference-change handler installed by
`DefaultBrowserRequestService.init`: builds a partial `RequestConfiguration`
from the changed keys (note the source reads key `proxyAuthorization` while
testing for key `http.proxyAuthorization`, exactly as written) and returns
the configuration that is then passed to `configure`; a thrown `TypeError`
is an `Except.error`. -/
def prefChangeHandler (e : List (String × PrefChange)) : Except String RequestConfiguration := do
  let config : RequestConfiguration := {}
  let config ←
    if (objGet e "http.proxy").isSome then do
      let value ← readNewValue e "http.proxy"
      pure { config with proxyUrl := some value }
    else pure config
  let config ←
    if (objGet e "http.proxyAuthorization").isSome then do
      let value ← readNewValue e "proxyAuthorization"
      pure { config with proxyAuthorization := some value }
    else pure config
  let config ←
    if (objGet e "http.proxyStrictSSL").isSome then do
      let value ← readNewValue e "http.proxyStrictSSL"
      pure { config with strictSSL := some value }
    else pure config
  pure config

end DefaultBrowserRequestService

namespace XHRBrowserRequestService

/-- `XHRBrowserRequestService.configure`: when the key `proxyAuthorization` is
present in the configuration, cache its value (even if undefined) as
`this.authorization`; always forward the full configuration to the inherited
delegating `configure` (second component). -/
def configure (authorization : JsValue) (config : RequestConfiguration) :
    JsValue × RequestConfiguration :=
  match config.proxyAuthorization with
  | some value => (value, config)
  | none => (authorization, config)

/-- The source expression `this.authorization || options.proxyAuthorization`
at the start of `xhrRequest` (JavaScript short-circuit `or` on truthiness). -/
def effectiveAuthorization (authorization : JsValue) (options : RequestOptions) : JsValue :=
  if authorization.truthy then authorization
  else
    match options.proxyAuthorization with
    | some s => .str s
    | none => .undefined

/-- The header-injection step of `xhrRequest`: when the effective
authorization is truthy, the source mutates `options.headers` to the spread of
the caller headers with `Proxy-Authorization` set. -/
def applyProxyAuthorization (authorization : JsValue) (options : RequestOptions) :
    RequestOptions :=
  let auth := effectiveAuthorization authorization options
  if auth.truthy then
    { options with
        headers := some (objSet ((options.headers).getD []) "Proxy-Authorization" auth.asString) }
  else options

/-- The fixed denylist tested by the `switch` in `setRequestHeaders`
(exact, case-sensitive names). -/
def unsafeHeader (name : String) : Bool :=
  name == "User-Agent" || name == "Accept-Encoding" || name == "Content-Length"

/-- `XHRBrowserRequestService.setRequestHeaders`: the headers actually passed
to `xhr.setRequestHeader`, i.e. every entry of `options.headers` whose name is
not on the denylist; denylisted names are skipped via `continue`. -/
def setRequestHeaders (options : RequestOptions) : Headers :=
  match options.headers with
  | none => []
  | some hs => hs.filter (fun e => !unsafeHeader e.1)

/-- The whitespace characters stripped by JavaScript `trim` that can occur in
an HTTP header line. -/
def jsWhitespace (c : Char) : Bool :=
  c == ' ' || c == '\t' || c == '\n' || c == '\r'

/-- JavaScript `String.prototype.trim`: strip whitespace from both ends. -/
def jsTrim (s : String) : String :=
  String.mk (((s.data.dropWhile jsWhitespace).reverse.dropWhile jsWhitespace).reverse)

/-- JavaScript `String.prototype.toLowerCase` on header names (ASCII
case-folding). -/
def jsToLower (s : String) : String :=
  String.mk (s.data.map Char.toLower)

/-- JavaScript `split(/\r\n|\n|\r/g)` on a character list (the alternation
prefers the two-character line ending, like the regex). -/
def splitLines : List Char → List Char → List String
  | [], acc => [String.mk acc.reverse]
  | '\r' :: '\n' :: rest, acc => String.mk acc.reverse :: splitLines rest []
  | '\r' :: rest, acc => String.mk acc.reverse :: splitLines rest []
  | '\n' :: rest, acc => String.mk acc.reverse :: splitLines rest []
  | c :: rest, acc => splitLines rest (c :: acc)

/-- `XHRBrowserRequestService.getResponseHeaders` applied to the raw header
block returned by `xhr.getAllResponseHeaders()`: split on any CR/LF line
ending, skip empty lines, split each line at the first colon (`indexOf`,
`-1` when absent, in which case `substr(0, -1)` is the empty name and
`substr(0)` the whole line), trim and lower-case the name, trim the value. -/
def getResponseHeaders (raw : String) : Headers :=
  (splitLines raw.data []).foldl
    (fun headers line =>
      if line == "" then headers
      else
        match line.data.findIdx? (fun c => c == ':') with
        | some idx =>
            objSet headers (jsToLower (jsTrim (String.mk (line.data.take idx))))
              (jsTrim (String.mk (line.data.drop (idx + 1))))
        | none => objSet headers "" (jsTrim line))
    []

/-- The observable behaviour of one native (XMLHttpRequest) attempt: whichever
of the registered callbacks settles the pending promise first. `cancelled`
means the cancellation token fired before any completion event. -/
inductive XhrEvent where
  | load (status : Nat) (rawHeaders : String) (body : BinaryBuffer)
  | networkError (statusText : String)
  | timeoutEvent
  | cancelled
deriving DecidableEq

/-- The record of one `xhrRequest` call: the options object after the
header-injection mutation (the same object the source later hands to the
delegate on fallback), the headers handed to `xhr.setRequestHeader`, whether
`xhr.abort()` ran, and how the promise settled. -/
structure XhrRun where
  finalOptions : RequestOptions
  sentHeaders : Headers
  aborted : Bool
  outcome : Except (Option String) RequestContext

/-- `XHRBrowserRequestService.xhrRequest`: inject the effective proxy
authorization into `options.headers`, apply the (denylist-filtered) headers,
then settle according to the first event: `onload` resolves with the parsed
status and headers and the raw byte payload; `onerror` rejects with
`XHR failed[: statusText]`; `ontimeout` rejects naming the timeout value; a
cancellation aborts the transport and rejects with no reason. -/
def xhrRequest (authorization : JsValue) (options : RequestOptions) (ev : XhrEvent) : XhrRun :=
  let options := applyProxyAuthorization authorization options
  let sent := setRequestHeaders options
  match ev with
  | .load status rawHeaders body =>
      { finalOptions := options, sentHeaders := sent, aborted := false,
        outcome := .ok
          { res := { statusCode := some status, headers := getResponseHeaders rawHeaders },
            buffer := body } }
  | .networkError statusText =>
      { finalOptions := options, sentHeaders := sent, aborted := false,
        outcome := .error (some
          (if !(statusText == "") then "XHR failed: " ++ statusText else "XHR failed")) }
  | .timeoutEvent =>
      { finalOptions := options, sentHeaders := sent, aborted := false,
        outcome := .error (some ("XHR timeout: " ++ jsNumber options.timeout ++ "ms")) }
  | .cancelled =>
      { finalOptions := options, sentHeaders := sent, aborted := true,
        outcome := .error none }

/-- The fallback condition of `XHRBrowserRequestService.request`: the native
attempt rejected, or resolved with status 405. -/
def fallsBack (run : XhrRun) : Bool :=
  match run.outcome with
  | .ok context => context.res.statusCode == some 405
  | .error _ => true

/-- `XHRBrowserRequestService.request`: try the native attempt; on status 405
or any rejection, return `super.request(options)` on the (possibly mutated)
options object. `delegate` stands for the inherited delegating request path
(await preference readiness, call the privileged peer, re-materialize the
buffer). The second component records the options the delegate was invoked
with (`none` when the native result was returned directly). -/
def request (authorization : JsValue) (options : RequestOptions) (ev : XhrEvent)
    (delegate : RequestOptions → RequestContext) :
    RequestContext × Option RequestOptions :=
  let run := xhrRequest authorization options ev
  match run.outcome with
  | .ok context =>
      if context.res.statusCode == some 405 then
        (delegate run.finalOptions, some run.finalOptions)
      else (context, none)
  | .error _ => (delegate run.finalOptions, some run.finalOptions)

end XHRBrowserRequestService

/-- A context with the given status code, no headers, and the given body
text. -/
def plainContext (status : Option Nat) (body : String) : RequestContext :=
  { res := { headers := [], statusCode := status }, buffer := { content := body } }

/-- A concrete stand-in for the host JSON parser, used to instantiate the
`asJson` theorems. -/
def stubParse : String → Except String Nat :=
  fun s => if s == "42" then .ok 42 else .error "Unexpected token"

/-- A concrete stand-in for the inherited delegating request path. -/
def stubDelegate (options : RequestOptions) : RequestContext :=
  plainContext (some 200) options.url

/-- Concrete caller-supplied options for the fallback scenarios. -/
def callerOptions : RequestOptions :=
  { url := "http://example.test/api", headers := some [("X-Custom", "Y")] }

/-- `callerOptions` as mutated by the native attempt once a proxy
authorization is cached. -/
def mutatedCallerOptions : RequestOptions :=
  { callerOptions with
      headers := some [("X-Custom", "Y"), ("Proxy-Authorization", "Basic abc")] }

/-- The authorization cached after `configure({proxyAuthorization: 'Basic
abc'})`. -/
def cachedBasicAbc : JsValue :=
  (XHRBrowserRequestService.configure JsValue.undefined
    { proxyAuthorization := some (JsValue.str "Basic abc") }).1

/-- The authorization cached after configuring with an empty-string proxy
authorization. -/
def cachedEmpty : JsValue :=
  (XHRBrowserRequestService.configure JsValue.undefined
    { proxyAuthorization := some (JsValue.str "") }).1

/-- Options carrying their own proxy authorization value. -/
def optionsWithAuthX : RequestOptions := { url := "u", proxyAuthorization := some "X" }

/-- Options carrying a denylisted and a custom header. -/
def c6options : RequestOptions :=
  { url := "u", headers := some [("User-Agent", "X"), ("X-Custom", "Y")] }

/-- The raw response-header block from the spec example. -/
def rawHeaderBlock : String := "Content-Type: text/plain\r\nX-Foo: Bar\r\n"

/-- A preference-change event containing only the key
`http.proxyAuthorization`. -/
def authChangeEvent : List (String × PrefChange) :=
  [("http.proxyAuthorization", { newValue := JsValue.str "Basic abc", oldValue := JsValue.undefined })]

open XHRBrowserRequestService DefaultBrowserRequestService

/-- Helper: every branch of `xhrRequest` records the mutated options. -/
theorem xhrRequest_finalOptions (authorization : JsValue) (options : RequestOptions)
    (ev : XhrEvent) :
    (xhrRequest authorization options ev).finalOptions
      = applyProxyAuthorization authorization options := by
  cases ev <;> rfl

/-- Helper: every branch of `xhrRequest` records the same applied headers. -/
theorem xhrRequest_sentHeaders (authorization : JsValue) (options : RequestOptions)
    (ev : XhrEvent) :
    (xhrRequest authorization options ev).sentHeaders
      = setRequestHeaders (applyProxyAuthorization authorization options) := by
  cases ev <;> rfl

/-- Helper: looking up the key just assigned. -/
theorem objGet_objSet_self {β : Type} (l : List (String × β)) (k : String) (v : β) :
    objGet (objSet l k v) k = some v := by
  induction l with
  | nil => simp [objGet, objSet]
  | cons e t ih =>
      by_cases h : e.1 = k
      · simp [objSet, objGet, h]
      · simp [objSet, objGet, h, ih]

/-- Helper: assignment to a different key does not change a lookup. -/
theorem objGet_objSet_ne {β : Type} (l : List (String × β)) (q k : String) (v : β)
    (h : ¬ q = k) :
    objGet (objSet l q v) k = objGet l k := by
  induction l with
  | nil => simp [objGet, objSet, h]
  | cons e t ih =>
      by_cases he : e.1 = q
      · have hek : ¬ e.1 = k := by rw [he]; exact h
        simp [objSet, objGet, he, h, hek]
      · have hkq : ¬ k = q := fun hh => h hh.symm
        by_cases hek : e.1 = k
        · simp [objSet, objGet, he, hek, hkq]
        · simp [objSet, objGet, he, hek, hkq, ih]

/-- Helper: the denylist filter does not change the lookup of a
non-denylisted header. -/
theorem objGet_filter_unsafe (hs : Headers) (k : String) (hk : unsafeHeader k = false) :
    objGet (hs.filter fun e => !unsafeHeader e.1) k = objGet hs k := by
  induction hs with
  | nil => rfl
  | cons e t ih =>
      rw [List.filter_cons]
      by_cases he : e.1 = k
      · subst he
        simp [hk, objGet]
      · by_cases hu : unsafeHeader e.1 = true
        · simp [hu, objGet, he, ih]
        · simp only [Bool.not_eq_true] at hu
          simp [hu, objGet, he, ih]

/-- Claim C2: `isSuccess` is true exactly when the status code is in
[200, 300) or equals 1223, and false when the status code is undefined. -/
theorem C2_isSuccess_iff (context : RequestContext) :
    RequestContext.isSuccess context = true ↔
      ∃ s, context.res.statusCode = some s ∧ ((200 ≤ s ∧ s < 300) ∨ s = 1223) := by
  cases h : context.res.statusCode with
  | none => simp [RequestContext.isSuccess, h]
  | some n =>
      simp [RequestContext.isSuccess, h]
      omega

/-- Witness for C2 at status 204. -/
theorem C2_isSuccess_iff_witness :
    RequestContext.isSuccess (plainContext (some 204) "") = true :=
  (C2_isSuccess_iff (plainContext (some 204) "")).mpr ⟨204, rfl, Or.inl (by omega)⟩

/-- Claim C3: `asText` fails with an error carrying the raw status code
whenever `isSuccess` is false, returns the empty string at status 204
regardless of the buffer, and otherwise returns the decoded buffer text. -/
theorem C3_asText (context : RequestContext) :
    (RequestContext.isSuccess context = false →
      RequestContext.asText context =
        Except.error ("Server returned " ++ jsNumber context.res.statusCode))
    ∧ (context.res.statusCode = some 204 → RequestContext.asText context = Except.ok "")
    ∧ (RequestContext.isSuccess context = true → ¬ context.res.statusCode = some 204 →
      RequestContext.asText context = Except.ok context.buffer.content) := by
  refine ⟨?_, ?_, ?_⟩
  · intro h
    simp [RequestContext.asText, h]
  · intro h
    have hs : RequestContext.isSuccess context = true := by
      simp [RequestContext.isSuccess, h]
    simp [RequestContext.asText, hs, RequestContext.hasNoContent, h]
  · intro hs h204
    simp [RequestContext.asText, hs, RequestContext.hasNoContent, h204]

/-- Witness for C3: a 204 context with a non-empty buffer yields the empty
string; a 404 context fails carrying the status code. -/
theorem C3_asText_witness :
    RequestContext.asText (plainContext (some 204) "ignored") = Except.ok ""
    ∧ RequestContext.asText (plainContext (some 404) "x") =
        Except.error ("Server returned " ++ jsNumber (some 404)) :=
  ⟨(C3_asText (plainContext (some 204) "ignored")).2.1 rfl,
   (C3_asText (plainContext (some 404) "x")).1 (by decide)⟩

/-- Claim C4: `asJson` applies the same success gate as `asText`, does not
special-case status 204 (any success context has its buffer decoded and
parsed), and on parse failure fails with the parser message with the raw
text appended after a newline. -/
theorem C4_asJson {α : Type} (parse : String → Except String α) (context : RequestContext) :
    (RequestContext.isSuccess context = false →
      RequestContext.asJson parse context =
        Except.error ("Server returned " ++ jsNumber context.res.statusCode))
    ∧ (∀ value, RequestContext.isSuccess context = true →
        parse context.buffer.content = Except.ok value →
        RequestContext.asJson parse context = Except.ok value)
    ∧ (∀ msg, RequestContext.isSuccess context = true →
        parse context.buffer.content = Except.error msg →
        RequestContext.asJson parse context =
          Except.error (msg ++ ":\n" ++ context.buffer.content)) := by
  refine ⟨?_, ?_, ?_⟩
  · intro h
    simp [RequestContext.asJson, h]
  · intro value hs hp
    simp [RequestContext.asJson, hs, hp]
  · intro msg hs hp
    simp [RequestContext.asJson, hs, hp]

/-- Witness for C4: a 204 success context still goes through the parse path
(no 204 special case) and surfaces the augmented parse error. -/
theorem C4_asJson_witness :
    RequestContext.asJson stubParse (plainContext (some 204) "") =
      Except.error ("Unexpected token" ++ ":\n" ++ "") :=
  (C4_asJson stubParse (plainContext (some 204) "")).2.2 "Unexpected token" (by decide) rfl

/-- Counterexample to C5 as stated: after `configure` caches the empty
string, the cached value does not take precedence — the native attempt uses
the options-supplied value and applies it as the header. -/
theorem C5_counterexample :
    cachedEmpty = JsValue.str ""
    ∧ effectiveAuthorization cachedEmpty optionsWithAuthX = JsValue.str "X"
    ∧ ¬ effectiveAuthorization cachedEmpty optionsWithAuthX = JsValue.str ""
    ∧ objGet (xhrRequest cachedEmpty optionsWithAuthX
        (XhrEvent.load 200 "" ⟨""⟩)).sentHeaders "Proxy-Authorization" = some "X" :=
  ⟨rfl, rfl, by decide, by decide⟩

/-- Claim C5 (amended): the cached configure value takes precedence only when
it is truthy (JavaScript `or`); whenever the effective authorization is
truthy it is applied as a `Proxy-Authorization` header in the native call,
alongside every caller-supplied non-denylisted header of another name. -/
theorem C5_proxyAuthorization (authorization : JsValue) (options : RequestOptions)
    (ev : XhrEvent)
    (h : (effectiveAuthorization authorization options).truthy = true) :
    objGet (xhrRequest authorization options ev).sentHeaders "Proxy-Authorization"
      = some (effectiveAuthorization authorization options).asString
    ∧ (∀ k v, objGet ((options.headers).getD []) k = some v → unsafeHeader k = false →
        ¬ k = "Proxy-Authorization" →
        objGet (xhrRequest authorization options ev).sentHeaders k = some v)
    ∧ (authorization.truthy = true → effectiveAuthorization authorization options = authorization) := by
  have hsent := xhrRequest_sentHeaders authorization options ev
  have happ : applyProxyAuthorization authorization options
      = { options with
            headers := some (objSet ((options.headers).getD []) "Proxy-Authorization"
              (effectiveAuthorization authorization options).asString) } := by
    simp [applyProxyAuthorization, h]
  have hset : setRequestHeaders (applyProxyAuthorization authorization options)
      = (objSet ((options.headers).getD []) "Proxy-Authorization"
          (effectiveAuthorization authorization options).asString).filter
            (fun e => !unsafeHeader e.1) := by
    rw [happ]
    rfl
  refine ⟨?_, ?_, ?_⟩
  · rw [hsent, hset, objGet_filter_unsafe _ _ (by decide), objGet_objSet_self]
  · intro k v hget hk hne
    rw [hsent, hset, objGet_filter_unsafe _ _ hk,
      objGet_objSet_ne _ _ _ _ (fun hq => hne hq.symm), hget]
  · intro ht
    simp [effectiveAuthorization, ht]

/-- Witness for C5: configuring `proxyAuthorization: 'Basic abc'` and then
requesting with no proxy authorization in the options applies
`Proxy-Authorization: Basic abc` at the native layer. -/
theorem C5_proxyAuthorization_witness :
    objGet (xhrRequest cachedBasicAbc callerOptions
        (XhrEvent.load 200 "" ⟨""⟩)).sentHeaders "Proxy-Authorization" = some "Basic abc" :=
  (C5_proxyAuthorization cachedBasicAbc callerOptions (XhrEvent.load 200 "" ⟨""⟩) (by decide)).1

/-- Claim C6: headers named exactly `User-Agent`, `Accept-Encoding` or
`Content-Length` are silently skipped by `setRequestHeaders` (no error: the
function is total), and every other header is passed to the native primitive
with its value. -/
theorem C6_setRequestHeaders (options : RequestOptions) :
    (∀ k v, (k, v) ∈ (options.headers).getD [] → unsafeHeader k = true →
        ¬ (k, v) ∈ setRequestHeaders options)
    ∧ (∀ k v, (k, v) ∈ (options.headers).getD [] → unsafeHeader k = false →
        (k, v) ∈ setRequestHeaders options) := by
  cases ho : options.headers with
  | none =>
      constructor <;> intro k v hin <;> simp [ho] at hin
  | some hs =>
      have hset : setRequestHeaders options = hs.filter (fun e => !unsafeHeader e.1) := by
        simp [setRequestHeaders, ho]
      constructor
      · intro k v hin hu hmem
        rw [hset] at hmem
        have hfil := (List.mem_filter.mp hmem).2
        simp [hu] at hfil
      · intro k v hin hu
        rw [hset]
        refine List.mem_filter.mpr ⟨by simpa [ho] using hin, ?_⟩
        simp [hu]

/-- Witness for C6: `User-Agent: X` is skipped while `X-Custom: Y` passes
through. -/
theorem C6_setRequestHeaders_witness :
    ¬ ("User-Agent", "X") ∈ setRequestHeaders c6options
    ∧ ("X-Custom", "Y") ∈ setRequestHeaders c6options :=
  ⟨(C6_setRequestHeaders c6options).1 "User-Agent" "X" (by decide) (by decide),
   (C6_setRequestHeaders c6options).2 "X-Custom" "Y" (by decide) (by decide)⟩

/-- Counterexample to C7 as stated: only the header name is lower-cased; the
value of `X-Foo: Bar` stays `Bar`, not `bar`. -/
theorem C7_counterexample :
    objGet (getResponseHeaders rawHeaderBlock) "x-foo" = some "Bar"
    ∧ ¬ objGet (getResponseHeaders rawHeaderBlock) "x-foo" = some "bar" :=
  ⟨rfl, by decide⟩

/-- Claim C7 (amended): the spec example block parses to
`content-type: text/plain` and `x-foo: Bar` — names trimmed and lower-cased,
values trimmed with their case preserved; a second block exercises the LF and
lone-CR line endings, first-colon splitting and trimming. -/
theorem C7_getResponseHeaders :
    getResponseHeaders rawHeaderBlock = [("content-type", "text/plain"), ("x-foo", "Bar")]
    ∧ getResponseHeaders "A: 1\nB:2\rC : 3 " = [("a", "1"), ("b", "2"), ("c", "3")] :=
  ⟨rfl, rfl⟩

/-- Counterexample input evaluation for C1 as stated: with a cached proxy
authorization, the 405 fallback hands the delegate an options object whose
headers are not the caller-supplied ones (a `Proxy-Authorization` entry was
added by the native attempt before falling back). -/
theorem C1_counterexample :
    (XHRBrowserRequestService.request cachedBasicAbc callerOptions
        (XhrEvent.load 405 "" ⟨""⟩) stubDelegate).2 = some mutatedCallerOptions
    ∧ ¬ mutatedCallerOptions.headers = callerOptions.headers :=
  ⟨by decide, by decide⟩

/-- Claim C1 (amended): whenever the native attempt resolves with status 405
or rejects, `request` invokes the inherited delegating path with the same
options object — url and body as the caller supplied — and returns the
delegate's result; the headers are the caller's unless an effective proxy
authorization existed, in which case the native attempt already added a
`Proxy-Authorization` entry to them. -/
theorem C1_request_fallback (authorization : JsValue) (options : RequestOptions)
    (ev : XhrEvent) (delegate : RequestOptions → RequestContext)
    (h : fallsBack (xhrRequest authorization options ev) = true) :
    XHRBrowserRequestService.request authorization options ev delegate
      = (delegate (applyProxyAuthorization authorization options),
         some (applyProxyAuthorization authorization options))
    ∧ (applyProxyAuthorization authorization options).url = options.url
    ∧ (applyProxyAuthorization authorization options).data = options.data
    ∧ ((effectiveAuthorization authorization options).truthy = false →
        applyProxyAuthorization authorization options = options) := by
  have hfo := xhrRequest_finalOptions authorization options ev
  refine ⟨?_, ?_, ?_, ?_⟩
  · unfold XHRBrowserRequestService.request
    cases houtcome : (xhrRequest authorization options ev).outcome with
    | ok context =>
        have h405 : (context.res.statusCode == some 405) = true := by
          have hfb := h
          unfold fallsBack at hfb
          rw [houtcome] at hfb
          exact hfb
        simp [houtcome, h405, hfo]
    | error e =>
        simp [houtcome, hfo]
  · cases ht : (effectiveAuthorization authorization options).truthy <;>
      simp [applyProxyAuthorization, ht]
  · cases ht : (effectiveAuthorization authorization options).truthy <;>
      simp [applyProxyAuthorization, ht]
  · intro ht
    simp [applyProxyAuthorization, ht]

/-- Witness for C1: with no authorization anywhere, a 405 native result makes
`request` return the delegate's result on the untouched caller options. -/
theorem C1_request_fallback_witness :
    XHRBrowserRequestService.request JsValue.undefined callerOptions
        (XhrEvent.load 405 "" ⟨""⟩) stubDelegate
      = (stubDelegate callerOptions, some callerOptions) := by
  have hmain := (C1_request_fallback JsValue.undefined callerOptions
    (XhrEvent.load 405 "" ⟨""⟩) stubDelegate (by decide)).1
  exact hmain

/-- Claim C8 at its failing input: a preference-change event containing only
the key `http.proxyAuthorization` makes the handler read the absent key
`proxyAuthorization` and throw a TypeError instead of building
`{proxyAuthorization: newValue}`. -/
theorem C8_prefHandler_bug :
    prefChangeHandler authChangeEvent
      = Except.error "TypeError: cannot read newValue of undefined" := rfl

/-- Claim C9: when the cancellation token fires before any completion event,
the in-flight native call is aborted and the pending native promise settles
as a rejection (with no reason), not as a success; fallback can only happen
afterwards, from that rejection. -/
theorem C9_cancellation (authorization : JsValue) (options : RequestOptions) :
    (xhrRequest authorization options XhrEvent.cancelled).aborted = true
    ∧ (xhrRequest authorization options XhrEvent.cancelled).outcome = Except.error none :=
  ⟨rfl, rfl⟩

/-- Claim C10: `configure` changes the cached authorization exactly when the
key `proxyAuthorization` is present in the configuration (present-but-
undefined clears it, an absent key leaves it unchanged), and always forwards
the full configuration to the inherited delegating `configure`. -/
theorem C10_configure (authorization : JsValue) (config : RequestConfiguration) :
    (config.proxyAuthorization = none →
      (XHRBrowserRequestService.configure authorization config).1 = authorization)
    ∧ (∀ value, config.proxyAuthorization = some value →
      (XHRBrowserRequestService.configure authorization config).1 = value)
    ∧ (XHRBrowserRequestService.configure authorization config).2 = config := by
  refine ⟨?_, ?_, ?_⟩
  · intro h
    simp [XHRBrowserRequestService.configure, h]
  · intro value h
    simp [XHRBrowserRequestService.configure, h]
  · cases h : config.proxyAuthorization <;> simp [XHRBrowserRequestService.configure, h]

/-- Witness for C10: a present-but-undefined `proxyAuthorization` clears the
cache. -/
theorem C10_configure_witness :
    (XHRBrowserRequestService.configure (JsValue.str "old")
        { proxyAuthorization := some JsValue.undefined }).1 = JsValue.undefined :=
  (C10_configure (JsValue.str "old") { proxyAuthorization := some JsValue.undefined }).2.1
    JsValue.undefined rfl

end Theia
